import Mathlib

/-!
# Verification of the terminal control / raw-input layer of `terminal-toys`

This file gives a shallow embedding of the terminal control and raw-input
layer of the repository (the code in `src/terminal_toys/terminal_utils.py`
and the older copy `src/terminal_utils.py`) and proves or refutes the
frozen claims about it.

Modelling conventions:
* The outside world (files, the terminal, the OS) is passed explicitly:
  the result of reading `/proc/version` is an `Option String` (`none` =
  the read raised), the result of `shutil.get_terminal_size()` is an
  `Option (Int × Int)` (`none` = it raised), the terminal's input
  discipline is an explicit state record, and stdin is an explicit queue
  of characters plus a list of byte bursts that arrive during a positive
  wait.
* Python exceptions are modelled with an explicit result type
  (`PyResult`); a bare `except:` clause is a total match on that type.
* Python floats (the `timeout` arguments) are modelled as rationals:
  the code only compares them with `0` and passes them to `select`.
-/

namespace TerminalToys

/-- The three terminal capability classes of the spec: `NativeConsole`
is the Windows console (`IS_WINDOWS`), `PosixTtyDegraded` is the
WSL compatibility environment (`IS_WSL`), `PosixTty` is a standard
Unix terminal. -/
inductive TerminalClass : Type
  | NativeConsole
  | PosixTty
  | PosixTtyDegraded
deriving DecidableEq, Repr

/-- Boolean infix test on character lists, used to model Python's
`'microsoft' in f.read().lower()`. -/
def listHasInfix (pat : List Char) : List Char → Bool
  | [] => decide (pat = [])
  | c :: rest => pat.isPrefixOf (c :: rest) || listHasInfix pat rest

/-- Model of `is_wsl()` (src/terminal_toys/terminal_utils.py lines 15-21).
`procVersion` is the outcome of reading `/proc/version`: `none` means the
`open`/`read` raised, in which case the bare `except:` returns `False`. -/
def is_wsl (procVersion : Option String) : Bool :=
  match procVersion with
  | none => false
  | some content => listHasInfix "microsoft".toList content.toLower.toList

/-- Model of the module-level platform detection
(src/terminal_toys/terminal_utils.py lines 24-26) resolved into the
spec's `TerminalClass`: `IS_WINDOWS = platform.system() == 'Windows'`,
`IS_WSL = is_wsl()`, `IS_UNIX = not IS_WINDOWS`. -/
def detect (platformSystem : String) (procVersion : Option String) : TerminalClass :=
  if platformSystem = "Windows" then TerminalClass.NativeConsole
  else if is_wsl procVersion then TerminalClass.PosixTtyDegraded
  else TerminalClass.PosixTty

/-- The class determined by the two module-level booleans
`IS_WINDOWS` and `IS_WSL`. -/
def classOf (isWindows isWSL : Bool) : TerminalClass :=
  if isWindows then TerminalClass.NativeConsole
  else if isWSL then TerminalClass.PosixTtyDegraded
  else TerminalClass.PosixTty

/-- Model of `get_terminal_size()` (src/terminal_toys/terminal_utils.py
lines 135-170).

* `isWSL` is the module flag.
* `envSize` is `some (cols, lines)` when both `COLUMNS` and `LINES` are
  set in the environment and both parse as integers (`none` covers both
  a missing variable and a parse failure, which the code treats alike by
  falling through to the next method).
* `sttySize` is `some (cols, lines)` when `stty size` ran with return
  code 0 and its output parsed; `none` covers every failure (all are
  swallowed by the inner `except: pass`).
* `shutilSize` is the result of `shutil.get_terminal_size()`; `none`
  means it raised, which the outer `except:` turns into `(80, 24)`. -/
def get_terminal_size (isWSL : Bool) (envSize sttySize shutilSize : Option (Int × Int)) :
    Int × Int :=
  let standard : Int × Int :=
    match shutilSize with
    | none => (80, 24)
    | some (c, l) => (max 40 (min c 120), max 20 (min l 40))
  let wslStty : Int × Int :=
    match sttySize with
    | some (c, l) => (c, l)
    | none => standard
  if isWSL then
    match envSize with
    | some (c, l) => if 0 < c ∧ 0 < l then (c, l) else wslStty
    | none => wslStty
  else standard

/-- Model of the older copy `get_terminal_size()`
(src/terminal_utils.py lines 53-59): no clamping at all, `(80, 24)`
only when the query raises. -/
def get_terminal_size_copy (shutilSize : Option (Int × Int)) : Int × Int :=
  match shutilSize with
  | none => (80, 24)
  | some (c, l) => (c, l)

/-- The terminal's screen-buffer state: whether the alternate screen
buffer is active. -/
structure ScreenState : Type where
  alt : Bool
deriving DecidableEq, Repr

/-- Model of `enable_alternate_screen()` (src/terminal_toys/terminal_utils.py
lines 172-177): emits `ESC [?1049h` (switching to the alternate buffer)
only when `not IS_WINDOWS and not IS_WSL`. -/
def enable_alternate_screen (isWindows isWSL : Bool) (st : ScreenState) : ScreenState :=
  if !isWindows && !isWSL then { alt := true } else st

/-- Model of `disable_alternate_screen()` (src/terminal_toys/terminal_utils.py
lines 179-184): emits `ESC [?1049l` (back to the main buffer) only when
`not IS_WINDOWS and not IS_WSL`. -/
def disable_alternate_screen (isWindows isWSL : Bool) (st : ScreenState) : ScreenState :=
  if !isWindows && !isWSL then { alt := false } else st

/-- The state of the terminal's input side that the raw-mode controller
touches: `attrs` is the termios input discipline (opaque, type `α`, as
returned by `tcgetattr`), `fl` is the file-status flag word of stdin
(the word read and written through `fcntl`). -/
structure TermState (α : Type) : Type where
  attrs : α
  fl : Nat
deriving DecidableEq, Repr

/-- `os.O_NONBLOCK` on Linux. -/
def O_NONBLOCK : Nat := 2048

/-- Model of `fl | os.O_NONBLOCK` (src/terminal_toys/terminal_utils.py
line 215). -/
def setNonblock (fl : Nat) : Nat := fl ||| O_NONBLOCK

/-- Model of `fl & ~os.O_NONBLOCK` (src/terminal_toys/terminal_utils.py
line 234).  Python integers are unbounded, so the AND with the
complement clears exactly the `O_NONBLOCK` bit; since the mask is a
single bit, that equals subtracting the masked-out part. -/
def clearNonblock (fl : Nat) : Nat := fl - (fl &&& O_NONBLOCK)

/-- The input modes of `KeyboardInput` (`self.input_mode`). -/
inductive Mode : Type
  | normal
  | raw
  | simple
  | windows
deriving DecidableEq, Repr

/-- The state of a `KeyboardInput` object together with the terminal
state it manipulates. -/
structure KBState (α : Type) : Type where
  old_settings : Option α
  input_mode : Mode
  term : TermState α
deriving DecidableEq, Repr

/-- Model of `KeyboardInput.__init__` (src/terminal_toys/terminal_utils.py
lines 189-220).

* `isWindows`, `isWSL`: the module flags (`IS_UNIX = not IS_WINDOWS`).
* `msvcrtAvail`, `termiosAvail`: whether the platform modules imported
  (`fcntl` is imported in the same `try` as `termios`, so its
  availability is the same flag).
* `tcOK`: whether the `try` block (tcgetattr/setraw/fcntl) succeeds;
  on failure the handler falls back to `input_mode = 'simple'`.
* `setrawFn` / `setcbreakFn`: the effect of `tty.setraw` /
  `tty.setcbreak` on the terminal attributes (opaque to this layer). -/
def kbInit {α : Type} (isWindows isWSL msvcrtAvail termiosAvail tcOK : Bool)
    (setrawFn setcbreakFn : α → α) (s : TermState α) : KBState α :=
  if isWindows && msvcrtAvail then
    { old_settings := none, input_mode := Mode.windows, term := s }
  else if !isWindows && termiosAvail then
    if tcOK then
      let old := s.attrs
      let attrs' := if isWSL then setcbreakFn s.attrs else setrawFn s.attrs
      let fl' := if !isWSL then setNonblock s.fl else s.fl
      { old_settings := some old, input_mode := Mode.raw,
        term := { attrs := attrs', fl := fl' } }
    else
      { old_settings := none, input_mode := Mode.simple, term := s }
  else
    { old_settings := none, input_mode := Mode.simple, term := s }

/-- Model of `KeyboardInput.cleanup` (src/terminal_toys/terminal_utils.py
lines 226-242): if `self.old_settings and termios`, restore blocking
mode (skipped on WSL), restore the saved attrs via `tcsetattr`, and
null `old_settings`; otherwise do nothing. -/
def cleanup {α : Type} (isWSL termiosAvail : Bool) (kb : KBState α) : KBState α :=
  match kb.old_settings with
  | some old =>
    if termiosAvail then
      let fl' := if !isWSL then clearNonblock kb.term.fl else kb.term.fl
      { old_settings := none, input_mode := kb.input_mode,
        term := { attrs := old, fl := fl' } }
    else kb
  | none => kb

/-- Model of the older copy's `KeyboardInput.__init__`
(src/terminal_utils.py lines 64-67, non-Windows branch): snapshot the
attrs, then `tty.setraw`.  Returns the saved `old_settings` and the new
terminal state. -/
def kbInitCopy {α : Type} (setrawFn : α → α) (s : TermState α) : Option α × TermState α :=
  (some s.attrs, { attrs := setrawFn s.attrs, fl := s.fl })

/-- Model of the older copy's `KeyboardInput.__del__`
(src/terminal_utils.py lines 69-71): if `old_settings` exists, restore
it via `tcsetattr`. -/
def kbDelCopy {α : Type} (old : Option α) (s : TermState α) : TermState α :=
  match old with
  | some o => { attrs := o, fl := s.fl }
  | none => s

/-- The state of stdin as the decoder sees it.  `pending` are the bytes
already readable in the OS buffer (one Python `str` character per byte);
`future` are bursts of bytes that arrive only if the program waits (each
positive-timeout `select` lets at most the next burst arrive). -/
structure Stdin : Type where
  pending : List Char
  future : List (List Char)
deriving DecidableEq, Repr

/-- Model of `select.select([sys.stdin], [], [], t)`: ready iff bytes are
pending; with a positive timeout (`positive = true`) a waiting burst may
arrive and make the stream ready. -/
def selectReady (positive : Bool) (s : Stdin) : Bool × Stdin :=
  match s.pending, s.future with
  | [], b :: rest => if positive then (true, { pending := b, future := rest }) else (false, s)
  | [], [] => (false, s)
  | _ :: _, _ => (true, s)

/-- Model of `sys.stdin.read(1)`: pops one pending byte; `none` models
the empty read `''` of a drained non-blocking stream. -/
def read1 (s : Stdin) : Option Char × Stdin :=
  match s.pending with
  | [] => (none, s)
  | c :: rest => (some c, { pending := rest, future := s.future })

/-- Model of the read loop of the standard Unix branch
(src/terminal_toys/terminal_utils.py lines 333-344): read one byte at a
time, stopping when the read comes back empty or when a zero-timeout
`select` reports nothing more immediately available.  The zero-timeout
`select` only sees `pending`, so the loop consumes exactly the pending
bytes. -/
def readAvailable : List Char → List Char
  | [] => []
  | [c] => [c]
  | c :: rest => c :: readAvailable rest

/-- Outcome of one Python call: a returned value or a raised exception.
`exnKI` is `KeyboardInterrupt`; `exnOther` stands for every other
exception class. -/
inductive PyResult : Type
  | ret (v : Option String)
  | exnKI
  | exnOther
deriving DecidableEq, Repr

/-- Whether a `PyResult` is a normal return. -/
def PyResult.isRet : PyResult → Bool
  | PyResult.ret _ => true
  | _ => false

/-- Model of the WSL branch of `KeyboardInput._get_key_unix_raw`
(src/terminal_toys/terminal_utils.py lines 292-327), the body inside the
`try`.  All the inner `select` calls use the positive timeout `0.1`, and
the outer one uses `timeout if timeout > 0 else 0.1`, also positive, so
every `select` here may pull the next burst. -/
def getKeyWSL (timeout : ℚ) (s : Stdin) : PyResult × Stdin :=
  let eff : ℚ := if 0 < timeout then timeout else 1 / 10
  let (ready, s1) := selectReady (decide (0 < eff)) s
  if ready then
    match read1 s1 with
    | (none, s2) => (PyResult.ret none, s2)
    | (some c, s2) =>
      if c = '\x1b' then
        let (r2, s3) := selectReady true s2
        if r2 then
          match read1 s3 with
          | (some c2, s4) =>
            if c2 = '[' then
              let (r3, s5) := selectReady true s4
              if r3 then
                match read1 s5 with
                | (some c3, s6) =>
                  if c3 = 'A' then (PyResult.ret (some "UP"), s6)
                  else if c3 = 'B' then (PyResult.ret (some "DOWN"), s6)
                  else if c3 = 'C' then (PyResult.ret (some "RIGHT"), s6)
                  else if c3 = 'D' then (PyResult.ret (some "LEFT"), s6)
                  else (PyResult.ret (some (String.mk [c])), s6)
                | (none, s6) => (PyResult.ret (some (String.mk [c])), s6)
              else (PyResult.ret (some (String.mk [c])), s5)
            else (PyResult.ret (some (String.mk [c])), s4)
          | (none, s4) => (PyResult.ret (some (String.mk [c])), s4)
        else (PyResult.ret (some (String.mk [c])), s3)
      else if c = '\x03' then (PyResult.exnKI, s2)
      else if c = '\r' ∨ c = '\n' then (PyResult.ret (some "\n"), s2)
      else (PyResult.ret (some (String.mk [c])), s2)
  else (PyResult.ret none, s1)

/-- Model of the standard Unix branch of `KeyboardInput._get_key_unix_raw`
(src/terminal_toys/terminal_utils.py lines 329-374), the body inside the
`try`: one `select(timeout)`, then the burst read loop, then the parse
of the accumulated `chars`. -/
def getKeyStd (timeout : ℚ) (s : Stdin) : PyResult × Stdin :=
  let (ready, s1) := selectReady (decide (0 < timeout)) s
  if ready then
    let chars := readAvailable s1.pending
    let s2 : Stdin := { pending := [], future := s1.future }
    if chars = [] then (PyResult.ret none, s2)
    else if chars.length = 1 then
      if chars = ['\x03'] then (PyResult.exnKI, s2)
      else if chars = ['\r'] ∨ chars = ['\n'] then (PyResult.ret (some "\n"), s2)
      else (PyResult.ret (some (String.mk chars)), s2)
    else
      if chars.head? = some '\x1b' then
        if chars = ['\x1b', '[', 'A'] ∨ chars = ['\x1b', 'O', 'A'] then
          (PyResult.ret (some "UP"), s2)
        else if chars = ['\x1b', '[', 'B'] ∨ chars = ['\x1b', 'O', 'B'] then
          (PyResult.ret (some "DOWN"), s2)
        else if chars = ['\x1b', '[', 'C'] ∨ chars = ['\x1b', 'O', 'C'] then
          (PyResult.ret (some "RIGHT"), s2)
        else if chars = ['\x1b', '[', 'D'] ∨ chars = ['\x1b', 'O', 'D'] then
          (PyResult.ret (some "LEFT"), s2)
        else if chars.length = 1 then (PyResult.ret (some "\x1b"), s2)
        else
          match chars with
          | ch :: _ => (PyResult.ret (some (String.mk [ch])), s2)
          | [] => (PyResult.ret none, s2)
      else
        match chars with
        | ch :: _ => (PyResult.ret (some (String.mk [ch])), s2)
        | [] => (PyResult.ret none, s2)
  else (PyResult.ret none, s1)

/-- Model of `KeyboardInput._get_key_simple`
(src/terminal_toys/terminal_utils.py lines 380-415).  `line` is the
outcome of the worker thread's `input()` joined with the timeout:
`none` when the join timed out or `input()` raised. -/
def getKeySimple (line : Option String) : Option String :=
  match line with
  | none => none
  | some l =>
    match l.toList with
    | [] => none
    | c0 :: _ =>
      let inp := l.toLower
      if inp = "w" then some "UP"
      else if inp = "s" then some "DOWN"
      else if inp = "a" then some "LEFT"
      else if inp = "d" then some "RIGHT"
      else some (String.mk [c0])

/-- Model of `KeyboardInput._get_key_unix_raw`
(src/terminal_toys/terminal_utils.py lines 285-378) as its callers see
it: the `if not select` guard, then the `try` body, then the bare
`except:` at line 375, which catches every exception — including the
`KeyboardInterrupt` raised for Ctrl+C — and returns `None`. -/
def getKeyUnixRaw (isWSL selectAvail : Bool) (timeout : ℚ) (s : Stdin)
    (line : Option String) : Option String × Stdin :=
  if !selectAvail then (getKeySimple line, s)
  else
    let (r, s') := if isWSL then getKeyWSL timeout s else getKeyStd timeout s
    match r with
    | PyResult.ret v => (v, s')
    | _ => (none, s')

/-- Model of `KeyboardInput._get_key_windows`
(src/terminal_toys/terminal_utils.py lines 264-283).  `q` is the console
input queue (`msvcrt.kbhit()` = queue not empty, `msvcrt.getch()` pops).
A special-key prefix byte with nothing queued behind it is modelled as
an empty follow-up read (in practice the console driver queues the two
bytes together).  A single byte ≥ 0x80 is not valid UTF-8, so
`decode('utf-8', errors='ignore')` yields the empty string for it. -/
def getKeyWindows (msvcrtAvail : Bool) (q : List Char) : Option String × List Char :=
  if msvcrtAvail then
    match q with
    | [] => (none, [])
    | k :: rest =>
      if k = '\xe0' ∨ k = '\x00' then
        match rest with
        | [] => (none, [])
        | k2 :: rest2 =>
          if k2 = 'H' then (some "UP", rest2)
          else if k2 = 'P' then (some "DOWN", rest2)
          else if k2 = 'K' then (some "LEFT", rest2)
          else if k2 = 'M' then (some "RIGHT", rest2)
          else (none, rest2)
      else (some (if k.toNat ≤ 127 then String.mk [k] else ""), rest)
  else (none, q)

/-- The process-external inputs that one `get_key` call can consume. -/
structure IOState : Type where
  stdin : Stdin
  winq : List Char
  line : Option String
deriving DecidableEq, Repr

/-- Model of `KeyboardInput.get_key` (src/terminal_toys/terminal_utils.py
lines 244-262): dispatch on `input_mode` inside a `try` whose handlers
re-raise `KeyboardInterrupt` and turn every other exception into
`None`. -/
def get_key (mode : Mode) (isWSL msvcrtAvail selectAvail : Bool) (timeout : ℚ)
    (io : IOState) : PyResult × IOState :=
  let (r, io') :=
    match mode with
    | Mode.windows =>
      let (v, q) := getKeyWindows msvcrtAvail io.winq
      (PyResult.ret v, { io with winq := q })
    | Mode.raw =>
      let (v, s) := getKeyUnixRaw isWSL selectAvail timeout io.stdin io.line
      (PyResult.ret v, { io with stdin := s })
    | _ => (PyResult.ret (getKeySimple io.line), io)
  match r with
  | PyResult.ret v => (PyResult.ret v, io')
  | PyResult.exnKI => (PyResult.exnKI, io')
  | PyResult.exnOther => (PyResult.ret none, io')

/-- Model of the older copy's `KeyboardInput._get_key_unix`
(src/terminal_utils.py lines 105-128): reads one byte, follows `ESC`
with up to two lookahead reads guarded by `select(0.1)`, recognizes only
the modern `ESC [ X` encodings, and returns `'\x1b'` whenever the
sequence does not complete. -/
def getKeyUnixCopy (timeout : ℚ) (s : Stdin) : Option String × Stdin :=
  let (ready, s1) := selectReady (decide (0 < timeout)) s
  if ready then
    match read1 s1 with
    | (none, s2) => (some "", s2)
    | (some k, s2) =>
      if k = '\x1b' then
        let (r2, s3) := selectReady true s2
        if r2 then
          match read1 s3 with
          | (none, s4) => (some "\x1b", s4)
          | (some k2, s4) =>
            if k2 = '[' then
              let (r3, s5) := selectReady true s4
              if r3 then
                match read1 s5 with
                | (none, s6) => (some "\x1b", s6)
                | (some k3, s6) =>
                  if k3 = 'A' then (some "UP", s6)
                  else if k3 = 'B' then (some "DOWN", s6)
                  else if k3 = 'C' then (some "RIGHT", s6)
                  else if k3 = 'D' then (some "LEFT", s6)
                  else (some "\x1b", s6)
              else (some "\x1b", s5)
            else (some "\x1b", s4)
        else (some "\x1b", s3)
      else (some (String.mk [k]), s2)
  else (none, s1)

/-- The eight arrow byte sequences recognized by the standard Unix
branch (modern `ESC [ X` and legacy `ESC O X`). -/
def isArrowSeq (chars : List Char) : Bool :=
  decide (chars = ['\x1b', '[', 'A']) || decide (chars = ['\x1b', 'O', 'A']) ||
  decide (chars = ['\x1b', '[', 'B']) || decide (chars = ['\x1b', 'O', 'B']) ||
  decide (chars = ['\x1b', '[', 'C']) || decide (chars = ['\x1b', 'O', 'C']) ||
  decide (chars = ['\x1b', '[', 'D']) || decide (chars = ['\x1b', 'O', 'D'])

/-- The four arrow directions. -/
inductive ArrowDir : Type
  | up
  | down
  | right
  | left
deriving DecidableEq, Repr

/-- The key name `get_key` returns for an arrow direction. -/
def arrowName : ArrowDir → String
  | ArrowDir.up => "UP"
  | ArrowDir.down => "DOWN"
  | ArrowDir.right => "RIGHT"
  | ArrowDir.left => "LEFT"

/-- The terminator byte of an arrow escape sequence. -/
def arrowLetter : ArrowDir → Char
  | ArrowDir.up => 'A'
  | ArrowDir.down => 'B'
  | ArrowDir.right => 'C'
  | ArrowDir.left => 'D'

/-- The modern arrow encoding `ESC [ X`. -/
def modernSeq (d : ArrowDir) : List Char := ['\x1b', '[', arrowLetter d]

/-- The legacy arrow encoding `ESC O X`. -/
def legacySeq (d : ArrowDir) : List Char := ['\x1b', 'O', arrowLetter d]

/-- The burst read loop drains exactly the pending bytes. -/
theorem readAvailable_eq : ∀ p : List Char, readAvailable p = p
  | [] => rfl
  | [_] => rfl
  | c :: c2 :: r => congrArg (fun l => c :: l) (readAvailable_eq (c2 :: r))

/-- Clearing `O_NONBLOCK` after setting it restores a flag word in which
the bit was clear. -/
theorem clearNonblock_setNonblock (fl : Nat) (h : fl &&& O_NONBLOCK = 0) :
    clearNonblock (setNonblock fl) = fl := by
  have hON : O_NONBLOCK = 2 ^ 11 := by norm_num [O_NONBLOCK]
  have hbit : fl.testBit 11 = false := by
    have h1 : fl &&& 2 ^ 11 = (fl.testBit 11).toNat * 2 ^ 11 := Nat.and_two_pow fl 11
    rw [hON] at h
    rcases hb2 : fl.testBit 11
    · rfl
    · rw [hb2] at h1; rw [h1] at h; norm_num at h
  have hdiv : fl / 2048 % 2 = 0 := by
    rw [Nat.testBit_to_div_mod] at hbit
    norm_num at hbit
    omega
  obtain ⟨a, b, hb, hfl⟩ : ∃ a b, b < 2048 ∧ fl = 4096 * a + b :=
    ⟨fl / 4096, fl % 2048, Nat.mod_lt _ (by norm_num), by omega⟩
  have e1 : 4096 * a + b = 4096 * a ||| b := by
    have h2 := Nat.mul_add_lt_is_or (i := 12) (b := b) (by omega) a
    norm_num at h2
    exact h2
  have e2 : 4096 * a + (2048 + b) = 4096 * a ||| (2048 + b) := by
    have h2 := Nat.mul_add_lt_is_or (i := 12) (b := 2048 + b) (by omega) a
    norm_num at h2
    omega
  have e3 : 2048 + b = 2048 ||| b := by
    have h2 := Nat.mul_add_lt_is_or (i := 11) (b := b) hb 1
    norm_num at h2
    exact h2
  have key : fl ||| 2048 = fl + 2048 := by
    subst hfl
    calc 4096 * a + b ||| 2048
        = (4096 * a ||| b) ||| 2048 := by rw [← e1]
      _ = 4096 * a ||| (b ||| 2048) := Nat.lor_assoc _ _ _
      _ = 4096 * a ||| (2048 ||| b) := by rw [Nat.lor_comm b 2048]
      _ = 4096 * a ||| (2048 + b) := by rw [← e3]
      _ = 4096 * a + (2048 + b) := by rw [← e2]
      _ = 4096 * a + b + 2048 := by omega
  have hbit2 : (fl + 2048).testBit 11 = true := by
    rw [Nat.testBit_to_div_mod]
    norm_num
    omega
  have hand : (fl + 2048) &&& 2048 = 2048 := by
    have h1 : (fl + 2048) &&& 2 ^ 11 = ((fl + 2048).testBit 11).toNat * 2 ^ 11 :=
      Nat.and_two_pow _ 11
    rw [hbit2] at h1
    norm_num at h1
    exact h1
  unfold clearNonblock setNonblock
  rw [hON] at h ⊢
  norm_num
  rw [key, hand]
  omega

/-- C1: constructing `KeyboardInput` and then calling `cleanup()` leaves
the terminal exactly as found.  For every platform-flag combination the
termios attrs are restored verbatim; when the `O_NONBLOCK` bit of
stdin's flag word was clear before acquisition (the case in which the
constructor actually cleared blocking mode), the whole terminal state —
attrs and flag word — is restored byte for byte.  The older copy's
`__del__` likewise restores the snapshot. -/
theorem C1_raw_mode_roundtrip {α : Type} (isWindows isWSL msvcrtAvail termiosAvail tcOK : Bool)
    (setrawFn setcbreakFn : α → α) (s : TermState α) :
    (cleanup isWSL termiosAvail
        (kbInit isWindows isWSL msvcrtAvail termiosAvail tcOK setrawFn setcbreakFn s)).term.attrs
      = s.attrs
    ∧ (s.fl &&& O_NONBLOCK = 0 →
        (cleanup isWSL termiosAvail
            (kbInit isWindows isWSL msvcrtAvail termiosAvail tcOK setrawFn setcbreakFn s)).term = s)
    ∧ kbDelCopy (kbInitCopy setrawFn s).1 (kbInitCopy setrawFn s).2 = s := by
  refine ⟨?_, ?_, rfl⟩ <;>
    cases isWindows <;> cases isWSL <;> cases msvcrtAvail <;>
      cases termiosAvail <;> cases tcOK <;>
    first
      | rfl
      | intro _; rfl
      | (intro h
         show TermState.mk s.attrs (clearNonblock (setNonblock s.fl)) = s
         rw [clearNonblock_setNonblock s.fl h])

/-- Witness for C1 at a concrete instantiation. -/
theorem C1_witness :
    ((5 : Nat) &&& O_NONBLOCK = 0) ∧
    (cleanup false true (kbInit false false true true true (fun a : Nat => a + 1) id
        { attrs := 7, fl := 5 })).term = { attrs := 7, fl := 5 } :=
  ⟨by decide,
   (C1_raw_mode_roundtrip false false true true true (fun a : Nat => a + 1) id
       { attrs := 7, fl := 5 }).2.1 (by decide)⟩

/-- C2: the claim says injecting the interrupt byte `0x03` always makes
`get_key` raise `KeyboardInterrupt`.  The body does raise it (first
conjunct), but the bare `except:` at the end of `_get_key_unix_raw`
catches `KeyboardInterrupt` too and returns `None`, so the caller of
`get_key` sees `None` — the explicit re-raise handler in `get_key` is
dead code.  On the standard path an interrupt byte sharing a burst with
other bytes is not even raised: it is returned as a literal character
(last conjunct). -/
theorem C2_interrupt_swallowed :
    getKeyStd 0 { pending := ['\x03'], future := [] } =
      (PyResult.exnKI, { pending := [], future := [] }) ∧
    getKeyUnixRaw false true 0 { pending := ['\x03'], future := [] } none =
      (none, { pending := [], future := [] }) ∧
    getKeyUnixRaw true true 0 { pending := ['\x03'], future := [] } none =
      (none, { pending := [], future := [] }) ∧
    get_key Mode.raw false true true 0
        { stdin := { pending := ['\x03'], future := [] }, winq := [], line := none } =
      (PyResult.ret none,
       { stdin := { pending := [], future := [] }, winq := [], line := none }) ∧
    getKeyStd 0 { pending := ['\x03', 'b'], future := [] } =
      (PyResult.ret (some "\x03"), { pending := [], future := [] }) :=
  ⟨rfl, rfl, rfl, rfl, rfl⟩

/-- C3: the claim says both arrow encodings decode on every path; in
fact the legacy `ESC O X` form is recognized only by the standard POSIX
burst parser.  On the WSL path and in the older copy, `ESC O A` yields
`'\x1b'` (Escape), consuming `ESC` and `O` and leaving `A` pending. -/
theorem C3_counterexample :
    getKeyUnixRaw true true 0 { pending := ['\x1b', 'O', 'A'], future := [] } none =
      (some "\x1b", { pending := ['A'], future := [] }) ∧
    getKeyUnixCopy 0 { pending := ['\x1b', 'O', 'A'], future := [] } =
      (some "\x1b", { pending := ['A'], future := [] }) ∧
    ("\x1b" : String) ≠ "UP" :=
  ⟨rfl, rfl, by decide⟩

/-- C3 (amended): on the standard POSIX path, both the modern
`ESC [ X` and the legacy `ESC O X` encodings of each direction decode to
the corresponding arrow event exactly once, consuming exactly the bytes
of the sequence; on the WSL path and in the older copy only the modern
encoding decodes, while the legacy one yields Escape after consuming its
first two bytes. -/
theorem C3_arrow_decoding (t : ℚ) (fut : List (List Char)) (d : ArrowDir) :
    getKeyStd t { pending := modernSeq d, future := fut } =
      (PyResult.ret (some (arrowName d)), { pending := [], future := fut }) ∧
    getKeyStd t { pending := legacySeq d, future := fut } =
      (PyResult.ret (some (arrowName d)), { pending := [], future := fut }) ∧
    getKeyUnixRaw false true t { pending := modernSeq d, future := fut } none =
      (some (arrowName d), { pending := [], future := fut }) ∧
    getKeyUnixRaw false true t { pending := legacySeq d, future := fut } none =
      (some (arrowName d), { pending := [], future := fut }) ∧
    getKeyWSL t { pending := modernSeq d, future := fut } =
      (PyResult.ret (some (arrowName d)), { pending := [], future := fut }) ∧
    getKeyUnixCopy t { pending := modernSeq d, future := fut } =
      (some (arrowName d), { pending := [], future := fut }) ∧
    getKeyWSL t { pending := legacySeq d, future := fut } =
      (PyResult.ret (some "\x1b"), { pending := [arrowLetter d], future := fut }) ∧
    getKeyUnixCopy t { pending := legacySeq d, future := fut } =
      (some "\x1b", { pending := [arrowLetter d], future := fut }) := by
  cases d <;> exact ⟨rfl, rfl, rfl, rfl, rfl, rfl, rfl, rfl⟩

/-- C4: a lone `ESC` byte with no continuation available within the
lookahead window yields the Escape key `'\x1b'`, never an arrow, on the
standard path, the WSL path, the `_get_key_unix_raw` wrapper for both,
and the older copy. -/
theorem C4_lone_escape (t : ℚ) :
    getKeyStd t { pending := ['\x1b'], future := [] } =
      (PyResult.ret (some "\x1b"), { pending := [], future := [] }) ∧
    getKeyWSL t { pending := ['\x1b'], future := [] } =
      (PyResult.ret (some "\x1b"), { pending := [], future := [] }) ∧
    getKeyUnixRaw false true t { pending := ['\x1b'], future := [] } none =
      (some "\x1b", { pending := [], future := [] }) ∧
    getKeyUnixRaw true true t { pending := ['\x1b'], future := [] } none =
      (some "\x1b", { pending := [], future := [] }) ∧
    getKeyUnixCopy t { pending := ['\x1b'], future := [] } =
      (some "\x1b", { pending := [], future := [] }) ∧
    (∀ d : ArrowDir, ("\x1b" : String) ≠ arrowName d) :=
  ⟨rfl, rfl, rfl, rfl, rfl, by intro d; cases d <;> decide⟩

/-- C5: the claim says sizes are clamped to 40×20…200×60 and that a
`(0,0)` query resolves to `(80,24)`.  The code clamps to 40×20…120×40,
and `(0,0)` resolves to `(40,20)`, not `(80,24)`. -/
theorem C5_counterexample :
    get_terminal_size false none none (some (0, 0)) = (40, 20) ∧
    get_terminal_size false none none (some (0, 0)) ≠ (80, 24) ∧
    get_terminal_size false none none (some (500, 100)) = (120, 40) := by
  decide

/-- C5 (amended): on the standard (non-WSL) path the queried size is
clamped into the band 40×20 … 120×40 — in particular `(0,0)` resolves to
`(40,20)` — and the fixed default `(80,24)` is returned exactly when the
query raises.  On the WSL path, a positive `COLUMNS`/`LINES` environment
result and an `stty size` result are returned unclamped.  The older copy
does not clamp at all. -/
theorem C5_size_clamping (env stty sh : Option (Int × Int)) (c l : Int) :
    (0 < c ∧ 0 < l → get_terminal_size true (some (c, l)) stty sh = (c, l)) ∧
    get_terminal_size true none (some (c, l)) sh = (c, l) ∧
    get_terminal_size false env stty none = (80, 24) ∧
    get_terminal_size false env stty (some (c, l)) =
      (max 40 (min c 120), max 20 (min l 40)) ∧
    40 ≤ (get_terminal_size false env stty (some (c, l))).1 ∧
    (get_terminal_size false env stty (some (c, l))).1 ≤ 120 ∧
    20 ≤ (get_terminal_size false env stty (some (c, l))).2 ∧
    (get_terminal_size false env stty (some (c, l))).2 ≤ 40 ∧
    get_terminal_size false env stty (some (0, 0)) = (40, 20) ∧
    get_terminal_size_copy none = (80, 24) ∧
    get_terminal_size_copy (some (c, l)) = (c, l) := by
  refine ⟨?_, rfl, rfl, rfl, ?_, ?_, ?_, ?_, rfl, rfl, rfl⟩
  · intro h
    simp [get_terminal_size, h.1, h.2]
  all_goals simp [get_terminal_size]

/-- Witness for C5's WSL-path conjunct at a concrete positive size. -/
theorem C5_witness :
    ((0 : Int) < 5 ∧ (0 : Int) < 3) ∧
    get_terminal_size true (some (5, 3)) none none = (5, 3) :=
  ⟨by decide, (C5_size_clamping none none none 5 3).1 (by decide)⟩

/-- C6: releasing twice is a no-op the second time: `cleanup` is
idempotent (the first call nulls `old_settings`), `cleanup` after a
failed acquisition (`tcOK = false`, so `old_settings` is `None`) changes
nothing, and `disable_alternate_screen` applied twice leaves the same
screen state as applying it once. -/
theorem C6_release_idempotent {α : Type} (isWindows isWSL msvcrtAvail termiosAvail : Bool)
    (setrawFn setcbreakFn : α → α) (kb : KBState α) (s : TermState α) (st : ScreenState) :
    cleanup isWSL termiosAvail (cleanup isWSL termiosAvail kb) = cleanup isWSL termiosAvail kb ∧
    cleanup isWSL termiosAvail
        (kbInit isWindows isWSL msvcrtAvail termiosAvail false setrawFn setcbreakFn s) =
      kbInit isWindows isWSL msvcrtAvail termiosAvail false setrawFn setcbreakFn s ∧
    disable_alternate_screen isWindows isWSL (disable_alternate_screen isWindows isWSL st) =
      disable_alternate_screen isWindows isWSL st := by
  refine ⟨?_, ?_, ?_⟩
  · rcases hold : kb.old_settings with _ | o <;> cases termiosAvail <;>
      simp [cleanup, hold]
  · cases isWindows <;> cases msvcrtAvail <;> cases termiosAvail <;> rfl
  · cases isWindows <;> cases isWSL <;> rfl

/-- C7: the claim says an unidentifiable environment defaults to
`PosixTtyDegraded`.  In fact when reading `/proc/version` fails,
`is_wsl` returns `False`, so a Unix host is classified as the standard
`PosixTty`, not the degraded class. -/
theorem C7_counterexample :
    detect "Linux" none = TerminalClass.PosixTty ∧
    TerminalClass.PosixTty ≠ TerminalClass.PosixTtyDegraded := by
  decide

/-- C7 (amended): detection never throws — `is_wsl` catches every read
failure and returns `False`, and `detect` always yields one of the three
classes — and when `/proc/version` cannot be read the host is classified
`NativeConsole` on Windows and the standard `PosixTty` otherwise (not
`PosixTtyDegraded`). -/
theorem C7_detect_default (ps : String) (pv : Option String) :
    is_wsl none = false ∧
    detect ps none =
      (if ps = "Windows" then TerminalClass.NativeConsole else TerminalClass.PosixTty) ∧
    (detect ps pv = TerminalClass.NativeConsole ∨
      detect ps pv = TerminalClass.PosixTtyDegraded ∨
      detect ps pv = TerminalClass.PosixTty) := by
  refine ⟨rfl, ?_, ?_⟩ <;> unfold detect
  · by_cases h : ps = "Windows" <;> simp [h, is_wsl]
  · by_cases h : ps = "Windows" <;> by_cases h2 : is_wsl pv <;> simp [h, h2]

/-- C8: the claim says the alternate screen buffer is entered on both
`PosixTty` and `NativeConsole`.  The guard is
`not IS_WINDOWS and not IS_WSL`, so on the Windows console
(`NativeConsole`) the switch is skipped as well. -/
theorem C8_counterexample :
    classOf true false = TerminalClass.NativeConsole ∧
    enable_alternate_screen true false { alt := false } = { alt := false } ∧
    ({ alt := false } : ScreenState) ≠ { alt := true } := by
  decide

/-- C8 (amended): `enable_alternate_screen` switches to the alternate
buffer only on the standard `PosixTty` class (`IS_WINDOWS` and `IS_WSL`
both false); it is skipped on `NativeConsole` and on `PosixTtyDegraded`;
`disable_alternate_screen` restores the main buffer on `PosixTty` and is
likewise skipped elsewhere. -/
theorem C8_alternate_screen_classes (st : ScreenState) :
    enable_alternate_screen false false st = { alt := true } ∧
    disable_alternate_screen false false st = { alt := false } ∧
    enable_alternate_screen true false st = st ∧
    enable_alternate_screen false true st = st ∧
    enable_alternate_screen true true st = st ∧
    disable_alternate_screen true false st = st ∧
    disable_alternate_screen false true st = st ∧
    classOf false false = TerminalClass.PosixTty ∧
    classOf true false = TerminalClass.NativeConsole ∧
    classOf false true = TerminalClass.PosixTtyDegraded :=
  ⟨rfl, rfl, rfl, rfl, rfl, rfl, rfl, rfl, rfl, rfl⟩

/-- C9: for every input mode, platform flag, timeout and input state,
`get_key` completes with a normal return (a string or `None`); no
exception class other than `KeyboardInterrupt` can escape (the
`except Exception` handler maps everything else to `None`), and in fact —
because of the bare `except:` inside `_get_key_unix_raw` — the modelled
paths never raise at all. -/
theorem C9_get_key_no_exception (mode : Mode) (isWSL msvcrtAvail selectAvail : Bool)
    (t : ℚ) (io : IOState) :
    ((get_key mode isWSL msvcrtAvail selectAvail t io).1).isRet = true := by
  cases mode <;> rfl

/-- C10: on the standard POSIX path, a burst of more than one byte that
does not begin with `ESC`, or begins with `ESC` but matches none of the
eight known arrow sequences, yields only its first byte as the key; the
whole burst is drained from the stream, so the remaining bytes are never
delivered by a later poll. -/
theorem C10_burst_first_byte_only (t : ℚ) (c : Char) (rest : List Char)
    (fut : List (List Char)) (hrest : rest ≠ [])
    (hnoarrow : c ≠ '\x1b' ∨ isArrowSeq (c :: rest) = false) :
    getKeyStd t { pending := c :: rest, future := fut } =
      (PyResult.ret (some (String.mk [c])), { pending := [], future := fut }) := by
  rcases rest with _ | ⟨c2, rest2⟩
  · exact absurd rfl hrest
  · simp only [getKeyStd, selectReady, readAvailable_eq, if_true]
    by_cases hc : c = '\x1b'
    · subst hc
      rcases hnoarrow with hne | hfalse
      · exact absurd rfl hne
      · simp only [isArrowSeq, Bool.or_eq_false_iff, decide_eq_false_iff_not] at hfalse
        obtain ⟨⟨⟨⟨⟨⟨⟨n1, n2⟩, n3⟩, n4⟩, n5⟩, n6⟩, n7⟩, n8⟩ := hfalse
        simp [n1, n2, n3, n4, n5, n6, n7, n8]
    · simp [hc]

/-- Witness for C10 at a concrete burst. -/
theorem C10_witness :
    (['b'] : List Char) ≠ [] ∧
    getKeyStd 0 { pending := ['a', 'b'], future := [] } =
      (PyResult.ret (some "a"), { pending := [], future := [] }) :=
  ⟨by decide,
   C10_burst_first_byte_only 0 'a' ['b'] [] (by decide) (Or.inl (by decide))⟩

end TerminalToys
